import Mathlib

/-!
Verification of the symbolic arithmetic engine of this repository
(src/symbolic_engine/operators.py and src/symbolic_engine/expression_eval.py),
as a shallow embedding in Lean 4.

Modelling conventions:
- Python numbers (int and float) are modelled by `PyNum`: `int` carries a
  mathematical integer, `float` carries a rational. IEEE-754 rounding of float
  arithmetic is idealised as exact rational arithmetic; no verified property
  below depends on a rounded float value.
- Python exceptions are modelled by the `Except PyErr` monad.
- A Python object sitting in an expression-tree position is either a bare
  number (int/float), a Symbol, or an operator node; `PyExpr` is exactly this
  union. A bare number is NOT a SymbolicExpression instance and has no
  evaluate/simplify methods, which the embedding models faithfully.
-/

/-- Python numeric values: `int n` models a Python int, `float q` models a
Python float (idealised as an exact rational). -/
inductive PyNum where
  | int (n : Int)
  | float (q : Rat)
deriving DecidableEq, Repr

/-- Python exceptions raised by the engine.  `fuelExhausted` is a modelling
artifact of the bounded recursion used for the tokenizer and parser; it is
never the result on the inputs considered below. -/
inductive PyErr where
  | attributeError (attr : String)
  | valueError (msg : String)
  | zeroDivisionError (msg : String)
  | typeError (msg : String)
  | indexError
  | fuelExhausted
deriving DecidableEq, Repr

/-- Numeric coercion to the rational idealisation (Python int-to-float
promotion). -/
def pyNumToQ : PyNum → Rat
  | .int n => (n : Rat)
  | .float q => q

/-- Python `+` on numbers: int stays int, any float makes a float. -/
def pyAdd : PyNum → PyNum → PyNum
  | .int a, .int b => .int (a + b)
  | a, b => .float (pyNumToQ a + pyNumToQ b)

/-- Python `-` on numbers. -/
def pySub : PyNum → PyNum → PyNum
  | .int a, .int b => .int (a - b)
  | a, b => .float (pyNumToQ a - pyNumToQ b)

/-- Python `*` on numbers. -/
def pyMul : PyNum → PyNum → PyNum
  | .int a, .int b => .int (a * b)
  | a, b => .float (pyNumToQ a * pyNumToQ b)

/-- Python `==` between a number and an int literal (int/float compare
numerically). -/
def pyNumEqInt (v : PyNum) (k : Int) : Bool :=
  match v with
  | .int n => n == k
  | .float q => q == (k : Rat)

/-- `Add._op`: `sum(values)` starts from the int `0` and folds `+` over the
values left to right. -/
def addOp (vals : List PyNum) : PyNum :=
  vals.foldl pyAdd (.int 0)

/-- `Multiply._op`: `result = 1` then `result *= v` over the values. -/
def mulOp (vals : List PyNum) : PyNum :=
  vals.foldl pyMul (.int 1)

/-- `Divide._op`: the denominator is tested against zero BEFORE any division
is attempted; only then is true division performed (always a float). -/
def divideOp (a b : PyNum) : Except PyErr PyNum :=
  if pyNumEqInt b 0 then .error (.zeroDivisionError "Division by zero.")
  else .ok (.float (pyNumToQ a / pyNumToQ b))

/-- `Power._op`: `base ** exponent`.  Faithful on int operands (in particular
`0 ** negative` raises ZeroDivisionError); for float operands with an
integer-valued exponent it is the exact rational power; a float power with a
non-integer exponent has an irrational (or complex) value that the rational
idealisation cannot represent — it is mapped to `0.0`, and no verified
property depends on that value (Python returns some number there as well, so
number-ness is preserved). -/
def powOp : PyNum → PyNum → Except PyErr PyNum
  | .int a, .int b =>
      if 0 ≤ b then .ok (.int (a ^ b.toNat))
      else if a = 0 then
        .error (.zeroDivisionError "0.0 cannot be raised to a negative power")
      else .ok (.float ((a : Rat) ^ b))
  | a, b =>
      let qa := pyNumToQ a
      let qb := pyNumToQ b
      if qb.den = 1 then
        if qa = 0 ∧ qb < 0 then
          .error (.zeroDivisionError "0.0 cannot be raised to a negative power")
        else .ok (.float (qa ^ qb.num))
      else .ok (.float 0)

/-- A Python object in expression-tree position: a bare number (int/float),
a `Symbol`, or one of the five operator nodes.  `Add`/`Multiply` hold a list
of operands (they are constructed n-ary); `Subtract`/`Divide`/`Power` are
binary by their constructor signatures. -/
inductive PyExpr where
  | num (v : PyNum)
  | sym (name : String)
  | add (args : List PyExpr)
  | sub (l r : PyExpr)
  | mul (args : List PyExpr)
  | div (l r : PyExpr)
  | pow (b e : PyExpr)
deriving Repr

/-- `isinstance(arg, SymbolicOperator)`: true exactly for the five operator
nodes (bare numbers and symbols are not operators). -/
def isOperatorNode : PyExpr → Bool
  | .num _ => false
  | .sym _ => false
  | _ => true

/-- `isinstance(arg, numbers.Number)` on a tree position. -/
def PyExpr.isNum : PyExpr → Bool
  | .num _ => true
  | _ => false

/-- `isinstance(arg, numbers.Number) and arg == k` for an int literal `k`. -/
def isNumEq (e : PyExpr) (k : Int) : Bool :=
  match e with
  | .num v => pyNumEqInt v k
  | _ => false

/-- `str()` of a Python number.  `str(int)` is the exact decimal rendering;
for floats only the integer-valued case (`"5.0"` style) is rendered
faithfully — the shortest-roundtrip repr of a general float is outside the
rational idealisation and no verified property depends on it. -/
def pyNumStr : PyNum → String
  | .int n => toString n
  | .float q =>
      if q.den = 1 then toString q.num ++ ".0"
      else toString q.num ++ "/" ++ toString q.den

mutual
/-- `__str__` of the expression classes: `Add`/`Multiply` join with
`" + "`/`" * "`, parenthesising operands that are operator nodes and leaving
numbers and symbols bare; `Subtract`/`Divide`/`Power` always parenthesise
both operands. -/
def render : PyExpr → String
  | .num v => pyNumStr v
  | .sym n => n
  | .add args => String.intercalate " + " (renderArgs args)
  | .mul args => String.intercalate " * " (renderArgs args)
  | .sub l r => "(" ++ render l ++ ") - (" ++ render r ++ ")"
  | .div l r => "(" ++ render l ++ ") / (" ++ render r ++ ")"
  | .pow b e => "(" ++ render b ++ ")^(" ++ render e ++ ")"

/-- Operand rendering for `Add.__str__` and `Multiply.__str__`: wrap operator
operands in parentheses. -/
def renderArgs : List PyExpr → List String
  | [] => []
  | a :: as =>
      (if isOperatorNode a then "(" ++ render a ++ ")" else render a)
        :: renderArgs as
end

/-- Evaluation bindings: the `**kwargs` mapping from symbol names to numeric
values. -/
abbrev Bindings := List (String × PyNum)

/-- Extract the numeric values when every evaluated operand is a number
(the `all(isinstance(arg, numbers.Number))` test), else `none`. -/
def allNums : List PyExpr → Option (List PyNum)
  | [] => some []
  | .num v :: rest => (allNums rest).map (v :: ·)
  | _ :: _ => none

mutual
/-- `expr.evaluate(**kwargs)`.  A bare number has no `evaluate` method, so
that call raises `AttributeError`.  A `Symbol` looks itself up in the
bindings (bindings here are always numeric, so the non-numeric ValueError
branch of `Symbol.evaluate` is unreachable).  An operator evaluates all its
operands left to right (the first exception propagates), applies `_op` when
every result is numeric — re-raising a `ZeroDivisionError` with the message
`"Division by zero in {self}"` — and otherwise rebuilds the same node class
over the partially evaluated operands. -/
def pyEvaluate : PyExpr → Bindings → Except PyErr PyExpr
  | .num _, _ => .error (.attributeError "evaluate")
  | .sym n, bs =>
      match bs.lookup n with
      | some v => .ok (.num v)
      | none => .ok (.sym n)
  | .add args, bs => do
      let eargs ← pyEvalArgs args bs
      match allNums eargs with
      | some vals => .ok (.num (addOp vals))
      | none => .ok (.add eargs)
  | .mul args, bs => do
      let eargs ← pyEvalArgs args bs
      match allNums eargs with
      | some vals => .ok (.num (mulOp vals))
      | none => .ok (.mul eargs)
  | .sub l r, bs => do
      let el ← pyEvaluate l bs
      let er ← pyEvaluate r bs
      match el, er with
      | .num a, .num b => .ok (.num (pySub a b))
      | _, _ => .ok (.sub el er)
  | .div l r, bs => do
      let el ← pyEvaluate l bs
      let er ← pyEvaluate r bs
      match el, er with
      | .num a, .num b =>
          match divideOp a b with
          | .ok v => .ok (.num v)
          | .error (.zeroDivisionError _) =>
              .error (.zeroDivisionError
                ("Division by zero in " ++ render (.div l r)))
          | .error e => .error e
      | _, _ => .ok (.div el er)
  | .pow b e, bs => do
      let eb ← pyEvaluate b bs
      let ee ← pyEvaluate e bs
      match eb, ee with
      | .num a, .num c =>
          match powOp a c with
          | .ok v => .ok (.num v)
          | .error (.zeroDivisionError _) =>
              .error (.zeroDivisionError
                ("Division by zero in " ++ render (.pow b e)))
          | .error err => .error err
      | _, _ => .ok (.pow eb ee)

/-- The list comprehension `[arg.evaluate(**kwargs) for arg in self.args]`:
left to right, first exception propagates. -/
def pyEvalArgs : List PyExpr → Bindings → Except PyErr (List PyExpr)
  | [], _ => .ok []
  | a :: as, bs => do
      let ea ← pyEvaluate a bs
      let eas ← pyEvalArgs as bs
      .ok (ea :: eas)
end

mutual
/-- `expr.simplify()`.  A bare number has no `simplify` method, so that call
raises `AttributeError`.  A `Symbol` is returned unchanged.  An operator
first simplifies all operands (first exception propagates), then:
`Add` drops operands that are numeric `0` (result `0` / the lone survivor /
a rebuilt `Add`); `Multiply` collapses to `0` on a numeric `0` operand, else
drops numeric `1` operands the same way; `Power` returns the base when the
exponent is numeric `1`, returns `1` when the exponent is numeric `0` or the
base is numeric `1`; every remaining case rebuilds the same node class over
the simplified operands. -/
def pySimplify : PyExpr → Except PyErr PyExpr
  | .num _ => .error (.attributeError "simplify")
  | .sym n => .ok (.sym n)
  | .add args => do
      let sargs ← pySimpArgs args
      let nonZero := sargs.filter (fun a => !(isNumEq a 0))
      match nonZero with
      | [] => .ok (.num (.int 0))
      | [x] => .ok x
      | _ => .ok (.add nonZero)
  | .mul args => do
      let sargs ← pySimpArgs args
      if sargs.any (fun a => isNumEq a 0) then .ok (.num (.int 0))
      else
        let nonOne := sargs.filter (fun a => !(isNumEq a 1))
        match nonOne with
        | [] => .ok (.num (.int 1))
        | [x] => .ok x
        | _ => .ok (.mul nonOne)
  | .sub l r => do
      let sl ← pySimplify l
      let sr ← pySimplify r
      .ok (.sub sl sr)
  | .div l r => do
      let sl ← pySimplify l
      let sr ← pySimplify r
      .ok (.div sl sr)
  | .pow b e => do
      let sb ← pySimplify b
      let se ← pySimplify e
      if isNumEq se 1 then .ok sb
      else if isNumEq se 0 then .ok (.num (.int 1))
      else if isNumEq sb 1 then .ok (.num (.int 1))
      else .ok (.pow sb se)

/-- The list comprehension `[arg.simplify() for arg in self.args]`. -/
def pySimpArgs : List PyExpr → Except PyErr (List PyExpr)
  | [] => .ok []
  | a :: as => do
      let sa ← pySimplify a
      let sas ← pySimpArgs as
      .ok (sa :: sas)
end

/-- Substitution maps: symbol name to replacement expression or number. -/
abbrev Subst := List (String × PyExpr)

mutual
/-- `ExpressionEvaluator.substitute(expr, substitutions)`: a `Symbol` whose
name is a key of the map becomes the mapped value; any node with an `args`
attribute (exactly the operator nodes) recurses into every operand and
rebuilds the same node class; everything else — bare numbers and unmapped
symbols — is returned unchanged. -/
def pySubstitute : PyExpr → Subst → PyExpr
  | .sym n, m =>
      match m.lookup n with
      | some r => r
      | none => .sym n
  | .num v, _ => .num v
  | .add args, m => .add (pySubArgs args m)
  | .mul args, m => .mul (pySubArgs args m)
  | .sub l r, m => .sub (pySubstitute l m) (pySubstitute r m)
  | .div l r, m => .div (pySubstitute l m) (pySubstitute r m)
  | .pow b e, m => .pow (pySubstitute b m) (pySubstitute e m)

/-- The list comprehension
`[self.substitute(arg, substitutions) for arg in expr.args]`. -/
def pySubArgs : List PyExpr → Subst → List PyExpr
  | [], _ => []
  | a :: as, m => pySubstitute a m :: pySubArgs as m
end

/-! ## Tokenizer

`Parser.tokenize` removes spaces and then applies
`re.findall` with the pattern
`(\d+\.?\d*|[a-zA-Z_][a-zA-Z0-9_]*|[+\-*/^()])`: left-to-right scanning,
greedy longest match per alternative, and — crucially — a character matching
no alternative is silently skipped rather than reported. -/

/-- First character of an identifier token: `[a-zA-Z_]`. -/
def isIdentStart (c : Char) : Bool := c.isAlpha || c == '_'

/-- Later character of an identifier token: `[a-zA-Z0-9_]`. -/
def isIdentChar (c : Char) : Bool := c.isAlphanum || c == '_'

/-- The single-character operator/parenthesis tokens `[+\-*/^()]`. -/
def isOpChar (c : Char) : Bool :=
  c == '+' || c == '-' || c == '*' || c == '/' || c == '^' || c == '(' || c == ')'

/-- The `re.findall` scan.  The fuel argument only bounds the recursion and
is never exhausted when it is at least the length of the character list
(every step consumes at least one character). -/
def scanTokens : Nat → List Char → List String
  | 0, _ => []
  | _, [] => []
  | fuel + 1, c :: cs =>
      if c.isDigit then
        let digs := cs.takeWhile Char.isDigit
        let rest := cs.dropWhile Char.isDigit
        match rest with
        | '.' :: cs2 =>
            let frac := cs2.takeWhile Char.isDigit
            String.mk (c :: (digs ++ '.' :: frac))
              :: scanTokens fuel (cs2.dropWhile Char.isDigit)
        | _ => String.mk (c :: digs) :: scanTokens fuel rest
      else if isIdentStart c then
        String.mk (c :: cs.takeWhile isIdentChar)
          :: scanTokens fuel (cs.dropWhile isIdentChar)
      else if isOpChar c then
        String.singleton c :: scanTokens fuel cs
      else
        scanTokens fuel cs

/-- `Parser.tokenize(expression)`: `expression.replace(' ', '')` followed by
the regex scan. -/
def tokenize (s : String) : List String :=
  let cs := s.data.filter (fun c => c ≠ ' ')
  scanTokens cs.length cs

/-! ## Parser

`Parser` keeps the token list and a cursor `pos`.  Each grammar method
returns the parsed subtree together with the new cursor position.  Reads of
`self.tokens[self.pos]` that Python performs without a bounds check are
modelled by `List.get?`, raising `IndexError` when out of range.  The fuel
argument bounds the recursion depth; `parseString` supplies more than enough
fuel for its token list, so `fuelExhausted` is never the outcome there. -/

/-- `token.isdigit()`: nonempty and all characters are digits. -/
def pyIsDigitStr (t : String) : Bool :=
  !t.data.isEmpty && t.data.all Char.isDigit

/-- `'.' in token`. -/
def strContainsDot (t : String) : Bool := t.data.contains '.'

/-- `token.isalpha()`: nonempty and all characters are alphabetic.  Note
that underscores and digits make this false. -/
def pyIsAlphaStr (t : String) : Bool :=
  !t.data.isEmpty && t.data.all Char.isAlpha

/-- Value of `int(token)` on a digit-only token. -/
def digitsToNat (l : List Char) : Nat :=
  l.foldl (fun a c => 10 * a + (c.toNat - 48)) 0

/-- Value of `float(token)` on a token `digits '.' digits`, idealised as the
exact decimal rational. -/
def pyFloatOfToken (t : String) : Rat :=
  let ip := t.data.takeWhile (fun c => c ≠ '.')
  match t.data.dropWhile (fun c => c ≠ '.') with
  | '.' :: fs => (digitsToNat ip : Rat) + (digitsToNat fs : Rat) / (10 : Rat) ^ fs.length
  | _ => (digitsToNat ip : Rat)

mutual
/-- `Parser.expression`: `left = term()` then the `+`/`-` folding loop. -/
def pExpression (toks : List String) (pos : Nat) : Nat → Except PyErr (PyExpr × Nat)
  | 0 => .error .fuelExhausted
  | fuel + 1 => do
      let (left, p) ← pTerm toks pos fuel
      pExprLoop toks left p fuel

termination_by structural fuel => fuel

/-- The `while` loop of `Parser.expression`: while the cursor is in bounds
and the current token is `+` or `-`, consume it, parse a term, and fold left
into `Add`/`Subtract`. -/
def pExprLoop (toks : List String) (left : PyExpr) (pos : Nat) :
    Nat → Except PyErr (PyExpr × Nat)
  | 0 => .error .fuelExhausted
  | fuel + 1 =>
      match toks.get? pos with
      | some t =>
          if t = "+" then do
            let (right, p) ← pTerm toks (pos + 1) fuel
            pExprLoop toks (.add [left, right]) p fuel
          else if t = "-" then do
            let (right, p) ← pTerm toks (pos + 1) fuel
            pExprLoop toks (.sub left right) p fuel
          else .ok (left, pos)
      | none => .ok (left, pos)
termination_by structural fuel => fuel

/-- `Parser.term`: `left = power()` then the `*`/`/` folding loop. -/
def pTerm (toks : List String) (pos : Nat) : Nat → Except PyErr (PyExpr × Nat)
  | 0 => .error .fuelExhausted
  | fuel + 1 => do
      let (left, p) ← pPower toks pos fuel
      pTermLoop toks left p fuel
termination_by structural fuel => fuel

/-- The `while` loop of `Parser.term`. -/
def pTermLoop (toks : List String) (left : PyExpr) (pos : Nat) :
    Nat → Except PyErr (PyExpr × Nat)
  | 0 => .error .fuelExhausted
  | fuel + 1 =>
      match toks.get? pos with
      | some t =>
          if t = "*" then do
            let (right, p) ← pPower toks (pos + 1) fuel
            pTermLoop toks (.mul [left, right]) p fuel
          else if t = "/" then do
            let (right, p) ← pPower toks (pos + 1) fuel
            pTermLoop toks (.div left right) p fuel
          else .ok (left, pos)
      | none => .ok (left, pos)
termination_by structural fuel => fuel

/-- `Parser.power`: `left = factor()`, then if the next token is `^`,
recurse into `power` itself on the right (right-associativity) and build a
`Power` node. -/
def pPower (toks : List String) (pos : Nat) : Nat → Except PyErr (PyExpr × Nat)
  | 0 => .error .fuelExhausted
  | fuel + 1 => do
      let (left, p) ← pFactor toks pos fuel
      match toks.get? p with
      | some t =>
          if t = "^" then do
            let (right, p2) ← pPower toks (p + 1) fuel
            .ok (.pow left right, p2)
          else .ok (left, p)
      | none => .ok (left, p)
termination_by structural fuel => fuel

/-- `Parser.factor`: reads `self.tokens[self.pos]` WITHOUT a bounds check
(IndexError when the cursor is at the end), advances the cursor, then:
an open parenthesis parses a nested expression and requires a closing
parenthesis (the bounds check there is short-circuited before the read);
a token satisfying `isdigit() or '.' in token` becomes a bare Python number
(float when it contains a dot, int otherwise — no Literal node class
exists); a token satisfying `isalpha()` becomes a `Symbol`; anything else
raises `ValueError("Invalid token: ...")`. -/
def pFactor (toks : List String) (pos : Nat) : Nat → Except PyErr (PyExpr × Nat)
  | 0 => .error .fuelExhausted
  | fuel + 1 =>
      match toks.get? pos with
      | none => .error .indexError
      | some token =>
          let pos := pos + 1
          if token = "(" then do
            let (e, p) ← pExpression toks pos fuel
            match toks.get? p with
            | some t2 =>
                if t2 = ")" then .ok (e, p + 1)
                else .error (.valueError "Mismatched parentheses")
            | none => .error (.valueError "Mismatched parentheses")
          else if pyIsDigitStr token || strContainsDot token then
            if strContainsDot token then
              .ok (.num (.float (pyFloatOfToken token)), pos)
            else
              .ok (.num (.int (digitsToNat token.data)), pos)
          else if pyIsAlphaStr token then
            .ok (.sym token, pos)
          else
            .error (.valueError ("Invalid token: " ++ token))
termination_by structural fuel => fuel
end

/-- `Parser.parse` applied to an already tokenized list: parse an
`expression` from position `0` and require every token to be consumed,
else `ValueError("Unexpected token: ...")`. -/
def pParse (toks : List String) (fuel : Nat) : Except PyErr PyExpr := do
  let (e, p) ← pExpression toks 0 fuel
  match toks.get? p with
  | some t => .error (.valueError ("Unexpected token: " ++ t))
  | none => .ok e

/-- `Parser.parse(expression)`: tokenize, then parse.  The fuel
`4 * tokens + 8` strictly dominates the recursion depth of the Python
parser on that token list (each nesting level consumes a token within four
calls), so `fuelExhausted` is unreachable. -/
def parseString (s : String) : Except PyErr PyExpr :=
  let toks := tokenize s
  pParse toks (4 * toks.length + 8)


/-! ## Structural helpers used by the verified properties -/

/-- The five operator kinds. -/
inductive OpKind where
  | add
  | sub
  | mul
  | div
  | pow
deriving DecidableEq, Repr

/-- The operator kind of a node (`none` for bare numbers and symbols). -/
def opKind : PyExpr → Option OpKind
  | .add _ => some .add
  | .sub _ _ => some .sub
  | .mul _ => some .mul
  | .div _ _ => some .div
  | .pow _ _ => some .pow
  | _ => none

/-- The operand count of an operator node (`none` for numbers and
symbols). -/
def opArity : PyExpr → Option Nat
  | .add args => some args.length
  | .mul args => some args.length
  | .sub _ _ => some 2
  | .div _ _ => some 2
  | .pow _ _ => some 2
  | _ => none

mutual
/-- No `Symbol` occurs anywhere: every leaf is a numeric constant. -/
def closedExpr : PyExpr → Bool
  | .num _ => true
  | .sym _ => false
  | .add args => closedList args
  | .mul args => closedList args
  | .sub l r => closedExpr l && closedExpr r
  | .div l r => closedExpr l && closedExpr r
  | .pow b e => closedExpr b && closedExpr e

/-- `closedExpr` on every element. -/
def closedList : List PyExpr → Bool
  | [] => true
  | a :: as => closedExpr a && closedList as
end

mutual
/-- The constructor invariant enforced by `SymbolicOperator.__init__`:
every `Add`/`Multiply` node holds at least one operand
(`Subtract`/`Divide`/`Power` are binary by shape). -/
def wfExpr : PyExpr → Bool
  | .num _ => true
  | .sym _ => true
  | .add args => !args.isEmpty && wfList args
  | .mul args => !args.isEmpty && wfList args
  | .sub l r => wfExpr l && wfExpr r
  | .div l r => wfExpr l && wfExpr r
  | .pow b e => wfExpr b && wfExpr e

/-- `wfExpr` on every element. -/
def wfList : List PyExpr → Bool
  | [] => true
  | a :: as => wfExpr a && wfList as
end

/-! ## Helper lemmas -/

theorem except_bind_ok {α β : Type} (a : α) (f : α → Except PyErr β) :
    (Except.ok a >>= f : Except PyErr β) = f a := rfl

theorem except_bind_error {α β : Type} (e : PyErr) (f : α → Except PyErr β) :
    (Except.error e >>= f : Except PyErr β) = Except.error e := rfl

theorem pySubArgs_length (as : List PyExpr) (m : Subst) :
    (pySubArgs as m).length = as.length := by
  induction as with
  | nil => rfl
  | cons a as ih => simp [pySubArgs, ih]

theorem scanTokens_nil (fuel : Nat) : scanTokens fuel [] = [] := by
  cases fuel <;> rfl

/-- Any well-formed tree whose leaves are all bare numbers crashes under
`evaluate`: the recursion reaches a bare number within the first operand
chain and that `arg.evaluate(**kwargs)` call raises `AttributeError`. -/
theorem closedEval_aux :
    ∀ (n : Nat) (e : PyExpr), sizeOf e ≤ n → wfExpr e = true →
      closedExpr e = true →
      pyEvaluate e [] = .error (.attributeError "evaluate") := by
  intro n
  induction n with
  | zero =>
      intro e hle _ _
      exfalso
      cases e <;> simp at hle
  | succ n ih =>
      intro e hle hwf hcl
      match e with
      | .num v => rfl
      | .sym s => simp [closedExpr] at hcl
      | .add args =>
          cases args with
          | nil => simp [wfExpr] at hwf
          | cons a as =>
              simp [wfExpr, wfList] at hwf
              simp [closedExpr, closedList] at hcl
              have hsz : sizeOf a ≤ n := by
                have : sizeOf a < sizeOf (PyExpr.add (a :: as)) := by
                  simp
                  omega
                omega
              have ha := ih a hsz hwf.1 hcl.1
              simp [pyEvaluate, pyEvalArgs, ha, except_bind_error, except_bind_ok]
      | .mul args =>
          cases args with
          | nil => simp [wfExpr] at hwf
          | cons a as =>
              simp [wfExpr, wfList] at hwf
              simp [closedExpr, closedList] at hcl
              have hsz : sizeOf a ≤ n := by
                have : sizeOf a < sizeOf (PyExpr.mul (a :: as)) := by
                  simp
                  omega
                omega
              have ha := ih a hsz hwf.1 hcl.1
              simp [pyEvaluate, pyEvalArgs, ha, except_bind_error, except_bind_ok]
      | .sub l r =>
          simp [wfExpr] at hwf
          simp [closedExpr] at hcl
          have hsz : sizeOf l ≤ n := by
            have : sizeOf l < sizeOf (PyExpr.sub l r) := by
              simp
              omega
            omega
          have hl := ih l hsz hwf.1 hcl.1
          simp [pyEvaluate, hl, except_bind_error, except_bind_ok]
      | .div l r =>
          simp [wfExpr] at hwf
          simp [closedExpr] at hcl
          have hsz : sizeOf l ≤ n := by
            have : sizeOf l < sizeOf (PyExpr.div l r) := by
              simp
              omega
            omega
          have hl := ih l hsz hwf.1 hcl.1
          simp [pyEvaluate, hl, except_bind_error, except_bind_ok]
      | .pow b e2 =>
          simp [wfExpr] at hwf
          simp [closedExpr] at hcl
          have hsz : sizeOf b ≤ n := by
            have : sizeOf b < sizeOf (PyExpr.pow b e2) := by
              simp
              omega
            omega
          have hb := ih b hsz hwf.1 hcl.1
          simp [pyEvaluate, hb, except_bind_error, except_bind_ok]

/-! ## The claims -/

/-- C1: the claim says that for every expression tree with no free symbols,
`evaluate(expr, {})` returns a number.  The code does the opposite: numeric
leaves are bare Python ints/floats with no `evaluate` method, so every such
tree makes `evaluate` raise `AttributeError` — it never returns at all. -/
theorem closed_tree_evaluate_raises_attributeError (e : PyExpr)
    (hwf : wfExpr e = true) (hcl : closedExpr e = true) :
    pyEvaluate e [] = .error (.attributeError "evaluate") :=
  closedEval_aux (sizeOf e) e le_rfl hwf hcl

/-- Witness for C1 at the concrete closed tree `Add(1, 2)`, i.e.
`parse("1+2")`. -/
theorem closed_tree_evaluate_raises_attributeError_witness :
    pyEvaluate (.add [.num (.int 1), .num (.int 2)]) [] =
      .error (.attributeError "evaluate") :=
  closed_tree_evaluate_raises_attributeError
    (.add [.num (.int 1), .num (.int 2)]) rfl rfl

/-- C2: `parse("x + 2 * y")` does produce the precedence-correct tree
`Add(Symbol x, Multiply(2, Symbol y))`, but evaluating it with `x=3, y=4`
raises `AttributeError` (the bare int operand `2` has no `evaluate`
method) instead of returning `11`. -/
theorem parse_precedence_correct_but_evaluate_crashes :
    parseString "x + 2 * y" =
      .ok (.add [.sym "x", .mul [.num (.int 2), .sym "y"]])
    ∧ pyEvaluate (.add [.sym "x", .mul [.num (.int 2), .sym "y"]])
        [("x", .int 3), ("y", .int 4)] = .error (.attributeError "evaluate") :=
  ⟨rfl, rfl⟩

/-- C3: `parse("2^3^2")` does produce the right-associated tree
`Power(2, Power(3, 2))`, but evaluating it with an empty binding raises
`AttributeError` (the bare int leaves have no `evaluate` method) instead of
returning `512`. -/
theorem parse_power_right_assoc_but_evaluate_crashes :
    parseString "2^3^2" =
      .ok (.pow (.num (.int 2)) (.pow (.num (.int 3)) (.num (.int 2))))
    ∧ pyEvaluate (.pow (.num (.int 2)) (.pow (.num (.int 3)) (.num (.int 2))))
        [] = .error (.attributeError "evaluate") :=
  ⟨rfl, rfl⟩

/-- C4: the zero test of `Divide._op` does run before the division and a
`Divide` node whose operands evaluate to numbers with a zero denominator
raises `ZeroDivisionError` — but the concrete instance named by the claim,
`evaluate(parse("1/x"), {x: 0})`, instead raises `AttributeError` on the
bare int numerator `1` before the denominator is ever looked at. -/
theorem divide_zero_checked_before_division :
    (∀ (l r : PyExpr) (bs : Bindings) (a b : PyNum),
        pyEvaluate l bs = .ok (.num a) →
        pyEvaluate r bs = .ok (.num b) →
        pyNumEqInt b 0 = true →
        pyEvaluate (.div l r) bs =
          .error (.zeroDivisionError
            ("Division by zero in " ++ render (.div l r))))
    ∧ parseString "1/x" = .ok (.div (.num (.int 1)) (.sym "x"))
    ∧ pyEvaluate (.div (.num (.int 1)) (.sym "x")) [("x", .int 0)] =
        .error (.attributeError "evaluate") := by
  refine ⟨?_, rfl, rfl⟩
  intro l r bs a b hl hr hb
  simp [pyEvaluate, hl, hr, except_bind_ok, except_bind_error, divideOp, hb]

/-- Witness for C4: `Divide(Symbol a, Symbol b)` with `a=1, b=0` raises the
re-raised `ZeroDivisionError` naming the node. -/
theorem divide_zero_checked_before_division_witness :
    pyEvaluate (.div (.sym "a") (.sym "b")) [("a", .int 1), ("b", .int 0)] =
      .error (.zeroDivisionError "Division by zero in (a) / (b)") :=
  divide_zero_checked_before_division.1 (.sym "a") (.sym "b")
    [("a", .int 1), ("b", .int 0)] (.int 1) (.int 0) rfl rfl rfl

/-- C5: the claim says an unscannable character fails tokenization with a
`LexicalError`; in fact `re.findall` silently discards it: tokenizing
`"2@3"` returns `["2", "3"]` with no error, and the later parse failure is
an unrelated `ValueError` about the then-adjacent tokens. -/
theorem tokenize_silently_drops_invalid_char :
    tokenize "2@3" = ["2", "3"]
    ∧ parseString "2@3" = .error (.valueError "Unexpected token: 3") :=
  ⟨rfl, rfl⟩

/-- C6: the claim says running out of tokens while a factor is expected is
a dedicated `ParseError`; in fact `Parser.factor` reads
`self.tokens[self.pos]` without a bounds check, so `"2+"` and `"("` fail
with an out-of-range `IndexError`. -/
theorem truncated_input_raises_indexError :
    parseString "2+" = .error .indexError
    ∧ parseString "(" = .error .indexError :=
  ⟨rfl, rfl⟩

/-- C7: the claim says `simplify(Add(0, Symbol x))` renders as `"x"`; in
fact `simplify` first calls `.simplify()` on every operand and the bare int
operand `0` has no such method, so the call raises `AttributeError`. -/
theorem simplify_add_zero_raises_attributeError :
    pySimplify (.add [.num (.int 0), .sym "x"]) =
      .error (.attributeError "simplify") :=
  rfl

/-- C8: `substitute` replaces exactly the `Symbol` nodes whose name is a
key of the map, leaves other symbols and bare numbers unchanged, and
rebuilds every operator node with the same kind and the same operand count;
`substitute(parse("x + y"), {x: Symbol z})` renders as `"z + y"`. -/
theorem substitute_preserves_operator_kind_and_arity :
    (∀ (e : PyExpr) (m : Subst), isOperatorNode e = true →
        opKind (pySubstitute e m) = opKind e
        ∧ opArity (pySubstitute e m) = opArity e)
    ∧ (∀ (n : String) (m : Subst),
        pySubstitute (.sym n) m = (m.lookup n).getD (.sym n))
    ∧ parseString "x + y" = .ok (.add [.sym "x", .sym "y"])
    ∧ render (pySubstitute (.add [.sym "x", .sym "y"]) [("x", .sym "z")]) =
        "z + y" := by
  refine ⟨?_, ?_, rfl, rfl⟩
  · intro e m hop
    cases e with
    | num v => simp [isOperatorNode] at hop
    | sym n => simp [isOperatorNode] at hop
    | add args =>
        exact ⟨rfl, by simp [pySubstitute, opArity, pySubArgs_length]⟩
    | mul args =>
        exact ⟨rfl, by simp [pySubstitute, opArity, pySubArgs_length]⟩
    | sub l r => exact ⟨rfl, rfl⟩
    | div l r => exact ⟨rfl, rfl⟩
    | pow b e2 => exact ⟨rfl, rfl⟩
  · intro n m
    cases h : m.lookup n <;> simp [pySubstitute, h]

/-- Witness for C8 at the concrete node from the claim. -/
theorem substitute_preserves_operator_kind_and_arity_witness :
    opKind (pySubstitute (.add [.sym "x", .sym "y"]) [("x", .sym "z")]) =
        opKind (.add [.sym "x", .sym "y"])
    ∧ opArity (pySubstitute (.add [.sym "x", .sym "y"]) [("x", .sym "z")]) =
        opArity (.add [.sym "x", .sym "y"]) :=
  substitute_preserves_operator_kind_and_arity.1
    (.add [.sym "x", .sym "y"]) [("x", .sym "z")] rfl

/-- C9: the claim says every identifier token (letter or underscore, then
letters/digits/underscores) is accepted as a factor and becomes a `Symbol`.
The tokenizer does produce such tokens, but `Parser.factor` only accepts a
token with `token.isalpha()`, which is false as soon as the identifier
contains a digit or underscore — `"x_1"`, `"_a"` and `"ab2"` are all
rejected with `ValueError("Invalid token: ...")`; only purely alphabetic
identifiers such as `"x"` become symbols. -/
theorem identifier_tokens_rejected_by_factor :
    tokenize "x_1" = ["x_1"]
    ∧ parseString "x_1" = .error (.valueError "Invalid token: x_1")
    ∧ parseString "_a" = .error (.valueError "Invalid token: _a")
    ∧ parseString "ab2" = .error (.valueError "Invalid token: ab2")
    ∧ parseString "x" = .ok (.sym "x") :=
  ⟨rfl, rfl, rfl, rfl, rfl⟩

/-! ## Lemmas about numeric-literal tokens (for C10) -/

theorem string_mk_data (l : List Char) : (String.mk l).data = l := rfl

theorem isDigit_ne_space {c : Char} (h : c.isDigit = true) : ¬(c = ' ') := by
  intro he
  subst he
  exact absurd h (by decide)

theorem isDigit_ne_dot {c : Char} (h : c.isDigit = true) : ¬(c = '.') := by
  intro he
  subst he
  exact absurd h (by decide)

theorem dot_beq_digit_false {c : Char} (h : c.isDigit = true) :
    ('.' == c) = false := by
  cases hbe : ('.' == c) with
  | false => rfl
  | true => exact absurd (eq_of_beq hbe).symm (isDigit_ne_dot h)

theorem digits_contains_dot_false {l : List Char} (h : l.all Char.isDigit = true) :
    l.contains '.' = false := by
  induction l with
  | nil => rfl
  | cons c cs ih =>
      simp only [List.all_cons, Bool.and_eq_true] at h
      rw [List.contains_cons, dot_beq_digit_false h.1, ih h.2]
      rfl

theorem takeWhile_append_all {p : Char → Bool} {l r : List Char}
    (h : ∀ c ∈ l, p c = true) : (l ++ r).takeWhile p = l ++ r.takeWhile p := by
  induction l with
  | nil => simp
  | cons c cs ih =>
      simp [List.takeWhile_cons_of_pos (h c (by simp)),
        ih (fun x hx => h x (by simp [hx]))]

theorem dropWhile_append_all {p : Char → Bool} {l r : List Char}
    (h : ∀ c ∈ l, p c = true) : (l ++ r).dropWhile p = r.dropWhile p := by
  induction l with
  | nil => simp
  | cons c cs ih =>
      simp [List.dropWhile_cons_of_pos (h c (by simp)),
        ih (fun x hx => h x (by simp [hx]))]

theorem takeWhile_digits_self {l : List Char} (h : l.all Char.isDigit = true) :
    l.takeWhile Char.isDigit = l :=
  List.takeWhile_eq_self_iff.mpr (List.all_eq_true.mp h)

theorem dropWhile_digits_nil {l : List Char} (h : l.all Char.isDigit = true) :
    l.dropWhile Char.isDigit = [] :=
  List.dropWhile_eq_nil_iff.mpr (List.all_eq_true.mp h)

theorem scanTokens_int_token (fuel : Nat) {d : Char} {ds : List Char}
    (hd : d.isDigit = true) (hds : ds.all Char.isDigit = true) :
    scanTokens (fuel + 1) (d :: ds) = [String.mk (d :: ds)] := by
  simp [scanTokens, hd, takeWhile_digits_self hds, dropWhile_digits_nil hds,
    scanTokens_nil]

theorem scanTokens_float_token (fuel : Nat) {d : Char} {ds fs : List Char}
    (hd : d.isDigit = true) (hds : ds.all Char.isDigit = true)
    (hfs : fs.all Char.isDigit = true) :
    scanTokens (fuel + 1) (d :: (ds ++ '.' :: fs)) =
      [String.mk (d :: (ds ++ '.' :: fs))] := by
  have hmem : ∀ c ∈ ds, Char.isDigit c = true := List.all_eq_true.mp hds
  have ht1 : List.takeWhile Char.isDigit ('.' :: fs) = [] := rfl
  have ht2 : List.dropWhile Char.isDigit ('.' :: fs) = '.' :: fs := rfl
  simp [scanTokens, hd, takeWhile_append_all hmem, dropWhile_append_all hmem,
    ht1, ht2, takeWhile_digits_self hfs, dropWhile_digits_nil hfs, scanTokens_nil]

theorem tokenize_int_token {d : Char} {ds : List Char}
    (hd : d.isDigit = true) (hds : ds.all Char.isDigit = true) :
    tokenize (String.mk (d :: ds)) = [String.mk (d :: ds)] := by
  have hns : ∀ c ∈ d :: ds, c ≠ ' ' := by
    intro c hc
    rcases List.mem_cons.mp hc with h1 | h2
    · exact h1 ▸ isDigit_ne_space hd
    · exact isDigit_ne_space (List.all_eq_true.mp hds c h2)
  simp only [tokenize, string_mk_data]
  rw [List.filter_eq_self.mpr (fun a ha => decide_eq_true (hns a ha))]
  exact scanTokens_int_token ds.length hd hds

theorem tokenize_float_token {d : Char} {ds fs : List Char}
    (hd : d.isDigit = true) (hds : ds.all Char.isDigit = true)
    (hfs : fs.all Char.isDigit = true) :
    tokenize (String.mk (d :: (ds ++ '.' :: fs))) =
      [String.mk (d :: (ds ++ '.' :: fs))] := by
  have hns : ∀ c ∈ d :: (ds ++ '.' :: fs), c ≠ ' ' := by
    intro c hc
    rcases List.mem_cons.mp hc with h1 | h2
    · exact h1 ▸ isDigit_ne_space hd
    · rcases List.mem_append.mp h2 with h3 | h4
      · exact isDigit_ne_space (List.all_eq_true.mp hds c h3)
      · rcases List.mem_cons.mp h4 with h5 | h6
        · exact h5 ▸ (by decide)
        · exact isDigit_ne_space (List.all_eq_true.mp hfs c h6)
  simp only [tokenize, string_mk_data]
  rw [List.filter_eq_self.mpr (fun a ha => decide_eq_true (hns a ha))]
  exact scanTokens_float_token _ hd hds hfs

theorem pFactor_int_token {toks : List String} {pos : Nat} {t : String}
    (hget : toks[pos]? = some t) (hpar : ¬(t = "("))
    (hdig : pyIsDigitStr t = true) (hdot : strContainsDot t = false) :
    ∀ fuel : Nat, pFactor toks pos (fuel + 1) =
      .ok (.num (.int (digitsToNat t.data)), pos + 1) := by
  intro fuel
  simp [pFactor, hget, hpar, hdig, hdot]

theorem pFactor_float_token {toks : List String} {pos : Nat} {t : String}
    (hget : toks[pos]? = some t) (hpar : ¬(t = "("))
    (hdot : strContainsDot t = true) :
    ∀ fuel : Nat, pFactor toks pos (fuel + 1) =
      .ok (.num (.float (pyFloatOfToken t)), pos + 1) := by
  intro fuel
  simp [pFactor, hget, hpar, hdot]

theorem pParse_single_token {t : String} {v : PyExpr}
    (hv : ∀ fuel : Nat, pFactor [t] 0 (fuel + 1) = .ok (v, 1)) :
    ∀ fuel : Nat, pParse [t] (fuel + 4) = .ok v := by
  have hpow : ∀ fuel, pPower [t] 0 (fuel + 2) = .ok (v, 1) := by
    intro fuel
    simp [pPower, hv fuel, except_bind_ok]
  have htermloop : ∀ fuel, pTermLoop [t] v 1 (fuel + 1) = .ok (v, 1) := by
    intro fuel
    simp [pTermLoop]
  have hterm : ∀ fuel, pTerm [t] 0 (fuel + 3) = .ok (v, 1) := by
    intro fuel
    simp [pTerm, hpow fuel, htermloop (fuel + 1), except_bind_ok]
  have hexprloop : ∀ fuel, pExprLoop [t] v 1 (fuel + 1) = .ok (v, 1) := by
    intro fuel
    simp [pExprLoop]
  have hexpr : ∀ fuel, pExpression [t] 0 (fuel + 4) = .ok (v, 1) := by
    intro fuel
    simp [pExpression, hterm fuel, hexprloop (fuel + 2), except_bind_ok]
  intro fuel
  simp [pParse, hexpr fuel, except_bind_ok]

theorem pyFloatOfToken_decimal {d : Char} {ds fs : List Char}
    (hd : d.isDigit = true) (hds : ds.all Char.isDigit = true) :
    pyFloatOfToken (String.mk (d :: (ds ++ '.' :: fs))) =
      (digitsToNat (d :: ds) : Rat) +
        (digitsToNat fs : Rat) / (10 : Rat) ^ fs.length := by
  have hne : ∀ c ∈ d :: ds, (fun c => decide (c ≠ '.')) c = true := by
    intro c hc
    rcases List.mem_cons.mp hc with h1 | h2
    · exact decide_eq_true (h1 ▸ isDigit_ne_dot hd)
    · exact decide_eq_true (isDigit_ne_dot (List.all_eq_true.mp hds c h2))
  have hshape : d :: (ds ++ '.' :: fs) = (d :: ds) ++ '.' :: fs := rfl
  have ht1 : List.takeWhile (fun c => decide (c ≠ '.')) ('.' :: fs) = [] := rfl
  have ht2 : List.dropWhile (fun c => decide (c ≠ '.')) ('.' :: fs) = '.' :: fs := rfl
  simp only [pyFloatOfToken, string_mk_data, hshape,
    takeWhile_append_all hne, dropWhile_append_all hne, ht1, ht2,
    List.append_nil]

/-- C10: there is no Literal node class — `Parser.factor` returns a bare
host-language number for a numeric token (an int when the token has no
decimal point, a float otherwise), so a single-number input parses to that
bare number rather than to a tree node, and `substitute` returns a bare
number unchanged under every substitution map. -/
theorem numeric_literal_parses_to_bare_number :
    (∀ (d : Char) (ds : List Char), d.isDigit = true →
        ds.all Char.isDigit = true →
        parseString (String.mk (d :: ds)) =
          .ok (.num (.int (digitsToNat (d :: ds)))))
    ∧ (∀ (d : Char) (ds fs : List Char), d.isDigit = true →
        ds.all Char.isDigit = true → fs.all Char.isDigit = true →
        parseString (String.mk (d :: (ds ++ '.' :: fs))) =
          .ok (.num (.float ((digitsToNat (d :: ds) : Rat) +
            (digitsToNat fs : Rat) / (10 : Rat) ^ fs.length))))
    ∧ (∀ (v : PyNum) (m : Subst), pySubstitute (.num v) m = .num v) := by
  refine ⟨?_, ?_, fun v m => rfl⟩
  · intro d ds hd hds
    have hall : (d :: ds).all Char.isDigit = true := by
      simp [List.all_cons, hd, hds]
    have hdig : pyIsDigitStr (String.mk (d :: ds)) = true := by
      simp [pyIsDigitStr, string_mk_data, hd, hds]
    have hdot : strContainsDot (String.mk (d :: ds)) = false :=
      digits_contains_dot_false hall
    have hpar : ¬(String.mk (d :: ds) = "(") := by
      intro he
      have h2 : d :: ds = ['('] := congrArg String.data he
      simp only [List.cons.injEq] at h2
      rw [h2.1] at hd
      exact absurd hd (by decide)
    have hget : ([String.mk (d :: ds)] : List String)[0]? =
        some (String.mk (d :: ds)) := rfl
    have hv := pFactor_int_token hget hpar hdig hdot
    have hparse := pParse_single_token hv
    simp only [parseString]
    rw [tokenize_int_token hd hds]
    have hfuel : 4 * [String.mk (d :: ds)].length + 8 = 8 + 4 := rfl
    rw [hfuel]
    exact hparse 8
  · intro d ds fs hd hds hfs
    have hm : ('.' : Char) ∈ d :: (ds ++ '.' :: fs) := by simp
    have hdot : strContainsDot (String.mk (d :: (ds ++ '.' :: fs))) = true :=
      List.elem_eq_true_of_mem hm
    have hpar : ¬(String.mk (d :: (ds ++ '.' :: fs)) = "(") := by
      intro he
      have h2 : d :: (ds ++ '.' :: fs) = ['('] := congrArg String.data he
      simp only [List.cons.injEq] at h2
      rw [h2.1] at hd
      exact absurd hd (by decide)
    have hget : ([String.mk (d :: (ds ++ '.' :: fs))] : List String)[0]? =
        some (String.mk (d :: (ds ++ '.' :: fs))) := rfl
    have hv := pFactor_float_token hget hpar hdot
    have hparse := pParse_single_token hv
    simp only [parseString]
    rw [tokenize_float_token hd hds hfs]
    have hfuel : 4 * [String.mk (d :: (ds ++ '.' :: fs))].length + 8 = 8 + 4 := rfl
    rw [hfuel]
    rw [← pyFloatOfToken_decimal hd hds]
    exact hparse 8

/-- Witness for C10 at the concrete inputs `"7"` and `"2.5"`. -/
theorem numeric_literal_parses_to_bare_number_witness :
    parseString (String.mk ['7']) = .ok (.num (.int (digitsToNat ['7'])))
    ∧ parseString (String.mk ['2', '.', '5']) =
        .ok (.num (.float ((digitsToNat ['2'] : Rat) +
          (digitsToNat ['5'] : Rat) / (10 : Rat) ^ [('5' : Char)].length))) :=
  ⟨numeric_literal_parses_to_bare_number.1 '7' [] (by decide) (by decide),
   numeric_literal_parses_to_bare_number.2.1 '2' [] ['5']
     (by decide) (by decide) (by decide)⟩
